import Mathlib

/-
Verification of the envoy-npm reconciliation service against its
specification.  The Python sources are shallowly embedded: dynamic
Python values become the inductive `JVal`, fallible code returns
`Except PyErr`, the HTTP layer and `json.loads` are oracles passed as
function arguments, and the retry loop of `NPMApiClient._make_request`
becomes a fuel-indexed structural recursion whose fuel equals the
number of remaining loop iterations.
-/

namespace EnvoyNpm
/-- Dynamic (JSON-like) Python value, as stored in host records,
metadata and configuration dictionaries. -/
inductive JVal where
  | null
  | bool (b : Bool)
  | num (n : Int)
  | str (s : String)
  | arr (xs : List JVal)
  | obj (kvs : List (String × JVal))

/- Python equality (==) on `JVal`, structural; values of different
kinds compare unequal (as Python str/int/list comparisons do). -/
mutual

def JVal.beq : JVal → JVal → Bool
  | JVal.null, JVal.null => true
  | JVal.bool a, JVal.bool b => a == b
  | JVal.num a, JVal.num b => a == b
  | JVal.str a, JVal.str b => a == b
  | JVal.arr xs, JVal.arr ys => JVal.beqList xs ys
  | JVal.obj xs, JVal.obj ys => JVal.beqObj xs ys
  | _, _ => false

def JVal.beqList : List JVal → List JVal → Bool
  | [], [] => true
  | x :: xs, y :: ys => JVal.beq x y && JVal.beqList xs ys
  | _, _ => false

def JVal.beqObj : List (String × JVal) → List (String × JVal) → Bool
  | [], [] => true
  | (k, v) :: xs, (l, w) :: ys => k == l && JVal.beq v w && JVal.beqObj xs ys
  | _, _ => false
end

/-- Python truthiness of a `JVal` (bool(x)). -/
def pyTruthy : JVal → Bool
  | JVal.null => false
  | JVal.bool b => b
  | JVal.num n => n != 0
  | JVal.str s => s != ""
  | JVal.arr xs => !xs.isEmpty
  | JVal.obj kvs => !kvs.isEmpty

/-- Python exception kinds relevant to the embedded code. -/
inductive PyErr where
  | keyError
  | attributeError
  | valueError
  | typeError
  | indexError
deriving DecidableEq

/-- Lookup in a string-keyed Python dict (first matching key), with
default: models d.get(k, default). -/
def dictGetD (kvs : List (String × JVal)) (k : String) (d : JVal) : JVal :=
  match kvs.find? (fun p => p.1 == k) with
  | some p => p.2
  | none => d

/-- Indexing a string-keyed Python dict: models d[k] (KeyError when
absent). -/
def dictIndex (kvs : List (String × JVal)) (k : String) : Except PyErr JVal :=
  match kvs.find? (fun p => p.1 == k) with
  | some p => Except.ok p.2
  | none => Except.error PyErr.keyError

/-- Python dict update d[k] = v: replaces the value of an existing key
in place, otherwise appends (insertion order is preserved). -/
def alistSet {α : Type} (kvs : List (String × α)) (k : String) (v : α) : List (String × α) :=
  match kvs with
  | [] => [(k, v)]
  | (k0, v0) :: rest =>
    if k0 == k then (k0, v) :: rest else (k0, v0) :: alistSet rest k v

/-- Models v.get(k, d) on a dynamic value: on a dict it is `dictGetD`,
on any other value Python raises AttributeError. -/
def pyDotGet (v : JVal) (k : String) (d : JVal) : Except PyErr JVal :=
  match v with
  | JVal.obj kvs => Except.ok (dictGetD kvs k d)
  | _ => Except.error PyErr.attributeError

/-- Models v[0]: list indexing, string indexing (first character), dict
lookup by key 0 (always KeyError here since embedded dict keys are
strings), TypeError otherwise. -/
def pyIndex0 (v : JVal) : Except PyErr JVal :=
  match v with
  | JVal.arr (x :: _) => Except.ok x
  | JVal.arr [] => Except.error PyErr.indexError
  | JVal.str s =>
    match s.toList with
    | [] => Except.error PyErr.indexError
    | c :: _ => Except.ok (JVal.str (String.singleton c))
  | JVal.obj _ => Except.error PyErr.keyError
  | _ => Except.error PyErr.typeError

/-- Models v["id"]-style indexing on a dynamic value: KeyError for a
dict missing the key, TypeError for non-dict values. -/
def pyIndexKey (v : JVal) (k : String) : Except PyErr JVal :=
  match v with
  | JVal.obj kvs => dictIndex kvs k
  | _ => Except.error PyErr.typeError

/-- Python str.lower (ASCII case folding, which covers every string the
service compares). -/
def pyLower (s : String) : String :=
  ⟨s.toList.map Char.toLower⟩

/-- Digit-run parser for Python int(str): digits with single
underscores allowed between digits. -/
def pyDigitsGo (acc : Nat) : List Char → Option Nat
  | [] => some acc
  | '_' :: c :: rest =>
    if c.isDigit then pyDigitsGo (acc * 10 + (c.toNat - '0'.toNat)) rest else none
  | c :: rest =>
    if c.isDigit then pyDigitsGo (acc * 10 + (c.toNat - '0'.toNat)) rest else none

/-- Nonempty digit run (first character must be a digit). -/
def pyDigits : List Char → Option Nat
  | [] => none
  | c :: rest =>
    if c.isDigit then pyDigitsGo (c.toNat - '0'.toNat) rest else none

/-- Python int(s) on a string: strips surrounding whitespace, accepts an
optional sign followed by decimal digits (with optional single
underscores between digits); `none` models ValueError. -/
def pyIntOfString (s : String) : Option Int :=
  let cs := ((s.toList.dropWhile Char.isWhitespace).reverse.dropWhile Char.isWhitespace).reverse
  match cs with
  | '+' :: rest => (pyDigits rest).map Int.ofNat
  | '-' :: rest => (pyDigits rest).map (fun n => -(Int.ofNat n))
  | rest => (pyDigits rest).map Int.ofNat

/-- Python int(v) on a dynamic value: ints pass through, bools coerce,
strings are parsed (ValueError on failure), anything else raises
TypeError. -/
def pyIntCoerce (v : JVal) : Except PyErr Int :=
  match v with
  | JVal.num n => Except.ok n
  | JVal.bool b => Except.ok (if b then 1 else 0)
  | JVal.str s =>
    match pyIntOfString s with
    | some n => Except.ok n
    | none => Except.error PyErr.valueError
  | _ => Except.error PyErr.typeError

/- Python repr of a `JVal` (string escaping inside reprs is not
modelled; no embedded comparison depends on it). -/
mutual

def pyRepr : JVal → String
  | JVal.null => "None"
  | JVal.bool true => "True"
  | JVal.bool false => "False"
  | JVal.num n => toString n
  | JVal.str s => "\x27" ++ s ++ "\x27"
  | JVal.arr xs => "[" ++ pyReprList xs ++ "]"
  | JVal.obj kvs => "\x7b" ++ pyReprObj kvs ++ "\x7d"

def pyReprList : List JVal → String
  | [] => ""
  | [x] => pyRepr x
  | x :: xs => pyRepr x ++ ", " ++ pyReprList xs

def pyReprObj : List (String × JVal) → String
  | [] => ""
  | [(k, v)] => "\x27" ++ k ++ "\x27: " ++ pyRepr v
  | (k, v) :: kvs => "\x27" ++ k ++ "\x27: " ++ pyRepr v ++ ", " ++ pyReprObj kvs
end

/-- Python str(v): identity on strings, repr otherwise. -/
def pyStr (v : JVal) : String :=
  match v with
  | JVal.str s => s
  | v => pyRepr v

/-! NPMApiClient (src/envoy_npm/npm_api.py). -/

/-- An HTTP response: status code and decoded JSON body. -/
structure Response where
  status : Nat
  body : JVal

/-- requests.Response truthiness (bool(response) is response.ok, i.e.
status below 400). -/
def respTruthy (r : Response) : Bool :=
  r.status < 400

/-- Outcome of one underlying session.request call inside the retry
loop of `_make_request`: either a response, or a RequestException
optionally carrying an attached response (e.response). -/
inductive AttemptOutcome where
  | response (r : Response)
  | exc (attached : Option Response)

/-- Observable result of one `_make_request` run: the value returned to
the caller plus the trace the spec reasons about (underlying HTTP
calls, login() invocations, time.sleep durations in order). -/
structure MRResult where
  response : Option Response
  httpCalls : Nat
  loginCalls : Nat
  sleeps : List Nat

/-- The retry loop body of `NPMApiClient._make_request`
(npm_api.py lines 279-319).  `outcome i` is what the HTTP call of loop
iteration `i` does; `login j` is whether the j-th re-login succeeds
(login() is a separate logical request and is modelled as an oracle).
`fuel` is the number of loop iterations left (`maxRetries - attempt`);
the fuel-exhausted case is the loop falling through (line 318, returns
None). -/
def mrGo (outcome : Nat → AttemptOutcome) (login : Nat → Bool)
    (maxRetries retryDelay : Nat) :
    Nat → Nat → Nat → Nat → List Nat → MRResult
  | 0, _, httpCalls, loginCalls, sleeps => ⟨none, httpCalls, loginCalls, sleeps⟩
  | fuel + 1, attempt, httpCalls, loginCalls, sleeps =>
    match outcome attempt with
    | AttemptOutcome.response r =>
      -- 401 handling (line 289): reauth whenever attempts remain
      if r.status = 401 ∧ attempt < maxRetries - 1 then
        if login loginCalls then
          -- relogin succeeded: continue, consuming this attempt slot
          mrGo outcome login maxRetries retryDelay fuel (attempt + 1)
            (httpCalls + 1) (loginCalls + 1) sleeps
        else
          -- relogin failed: return the 401 response (line 296)
          ⟨some r, httpCalls + 1, loginCalls + 1, sleeps⟩
      else
        -- every other status is returned immediately (line 301)
        ⟨some r, httpCalls + 1, loginCalls, sleeps⟩
    | AttemptOutcome.exc attached =>
      if attempt = maxRetries - 1 then
        -- final attempt: return e.response when attached, else None
        ⟨attached, httpCalls + 1, loginCalls, sleeps⟩
      else
        -- backoff retry_delay * 2 ** attempt, then next attempt
        mrGo outcome login maxRetries retryDelay fuel (attempt + 1)
          (httpCalls + 1) loginCalls (sleeps ++ [retryDelay * 2 ^ attempt])

/-- One logical request through `_make_request`. -/
def make_request (outcome : Nat → AttemptOutcome) (login : Nat → Bool)
    (maxRetries retryDelay : Nat) : MRResult :=
  mrGo outcome login maxRetries retryDelay maxRetries 0 0 0 []

/-- `NPMApiClient.create_proxy_host` on the result `_make_request`
returned (npm_api.py lines 93-161): on 201 it returns the body member
id (the numeric id, not the record); on any other status, an absent
response, or an exception while reading the body it returns None. -/
def create_proxy_host (resp : Option Response) : JVal :=
  match resp with
  | none => JVal.null
  | some r =>
    if r.status = 201 then
      match pyDotGet r.body "id" JVal.null with
      | Except.ok v => v
      | Except.error _ => JVal.null
    else JVal.null

/-- `NPMApiClient.update_proxy_host` on the result `_make_request`
returned (npm_api.py lines 163-228): success iff a response arrived,
is truthy, and its status is 200. -/
def update_proxy_host (resp : Option Response) : Bool :=
  match resp with
  | none => false
  | some r => respTruthy r && r.status == 200

/-- A 401 response used in the concrete counterexamples. -/
def r401c : Response := ⟨401, JVal.obj []⟩

/-- A 200 response used in the concrete witnesses. -/
def r200c : Response := ⟨200, JVal.obj [("id", JVal.num 7)]⟩

/-- A 500 response used in the concrete counterexamples. -/
def r500c : Response := ⟨500, JVal.obj []⟩

/-! DockerMonitor (src/envoy_npm/docker_monitor.py). -/

/-- Lookup in an environment dictionary (string-keyed, string-valued). -/
def envLookup (env : List (String × String)) (k : String) : Option String :=
  match env.find? (fun p => p.1 == k) with
  | some p => some p.2
  | none => none

/-- env.get(k, default). -/
def envGetD (env : List (String × String)) (k d : String) : String :=
  (envLookup env k).getD d

/-- Python s.split("=", 1) when "=" occurs in s: key is everything
before the first "=", value everything after; `none` when s has no
"=". -/
def splitFirstEq (acc : List Char) : List Char → Option (String × String)
  | [] => none
  | '=' :: rest => some (⟨acc.reverse⟩, ⟨rest⟩)
  | c :: rest => splitFirstEq (c :: acc) rest

/-- `DockerMonitor._parse_container_env` (docker_monitor.py lines
183-203): each "KEY=VALUE" entry is split on the first "=", entries
without "=" are ignored, later entries overwrite earlier keys. -/
def parse_container_env (envList : List String) : List (String × String) :=
  envList.foldl (fun acc s =>
    match splitFirstEq [] s.toList with
    | none => acc
    | some (k, v) => alistSet acc k v) []

/-- `DockerMonitor._extract_npm_env` (docker_monitor.py lines 205-230):
requires both NPM_HOST and NPM_PORT (else not proxy-enabled, `ok none`);
int(NPM_PORT) raises ValueError on a non-integer string; the boolean
variables are lower-cased exact matches against "true". -/
def extract_npm_env (env : List (String × String)) :
    Except PyErr (Option (List (String × JVal))) :=
  match envLookup env "NPM_HOST", envLookup env "NPM_PORT" with
  | some h, some p =>
    match pyIntOfString p with
    | none => Except.error PyErr.valueError
    | some n =>
      Except.ok (some [
        ("host", JVal.str h),
        ("port", JVal.num n),
        ("ssl", JVal.bool (pyLower (envGetD env "NPM_SSL" "false") == "true")),
        ("enable_ws", JVal.bool (pyLower (envGetD env "NPM_ENABLE_WS" "false") == "true")),
        ("enable_hsts", JVal.bool (pyLower (envGetD env "NPM_ENABLE_HSTS" "false") == "true")),
        ("network", JVal.str (envGetD env "NPM_NETWORK" "")),
        ("advanced_config", JVal.str (envGetD env "NPM_ADVANCED_CONFIG" ""))])
  | _, _ => Except.ok none

/-- One entry of NetworkSettings.Networks after
`DockerMonitor._get_container_networks` (docker_monitor.py lines
232-254). -/
structure NetworkInfo where
  ip_address : String
  gateway : String
  network_id : String

/-- `DockerMonitor._get_container_networks`: keeps every network,
defaulting each field to the empty string. -/
def get_container_networks (raw : List (String × List (String × String))) :
    List (String × NetworkInfo) :=
  raw.foldl (fun acc p =>
    alistSet acc p.1
      ⟨envGetD p.2 "IPAddress" "", envGetD p.2 "Gateway" "", envGetD p.2 "NetworkID" ""⟩) []

/-- Raw container inspection data, as the Docker client reports it. -/
structure Inspection where
  id : String
  name : String
  status : String
  image : String
  envList : List String
  networksRaw : List (String × List (String × String))

/-- The info dictionary `DockerMonitor.get_container_info` builds;
npm_config is present only when the extractor produced a (truthy)
configuration. -/
structure ContainerInfo where
  id : String
  name : String
  status : String
  image : String
  env : List (String × String)
  networks : List (String × NetworkInfo)
  npm_config : Option (List (String × JVal))

/-- `DockerMonitor.get_container_info` (docker_monitor.py lines
70-104): `none` input models docker NotFound (container gone, returns
None); any exception inside the body — in particular the ValueError
from int(NPM_PORT) — is caught by the generic handler, which also
returns None. -/
def get_container_info (insp : Option Inspection) : Option ContainerInfo :=
  match insp with
  | none => none
  | some d =>
    let env := parse_container_env d.envList
    match extract_npm_env env with
    | Except.error _ => none
    | Except.ok npmOpt =>
      some ⟨d.id, d.name, d.status, d.image, env, get_container_networks d.networksRaw, npmOpt⟩

/-! EnvoyService (src/envoy_npm/envoy_service.py).  The NPM client is
abstracted at its call boundary: `createH` is what
npm_client.create_proxy_host returns for given host data (None is
JVal.null), `updateH` whether update_proxy_host succeeded, and
`jsonLoads` is json.loads with `none` modelling JSONDecodeError.
Logging-only arguments (container_name) are dropped. -/

/-- Membership in a Python set of dynamic values. -/
def jvalMem (xs : List JVal) (v : JVal) : Bool :=
  xs.any (fun x => JVal.beq x v)

/-- set.add. -/
def jvalInsert (xs : List JVal) (v : JVal) : List JVal :=
  if jvalMem xs v then xs else xs ++ [v]

/-- Lookup in the domain-keyed host cache (Python dict keyed by the
dynamic domain value). -/
def jAlistGet (kvs : List (JVal × JVal)) (k : JVal) : Option JVal :=
  match kvs.find? (fun p => JVal.beq p.1 k) with
  | some p => some p.2
  | none => none

/-- Update of the domain-keyed host cache. -/
def jAlistSet (kvs : List (JVal × JVal)) (k v : JVal) : List (JVal × JVal) :=
  match kvs with
  | [] => [(k, v)]
  | (k0, v0) :: rest =>
    if JVal.beq k0 k then (k0, v) :: rest else (k0, v0) :: jAlistSet rest k v

/-- The mutable service state: current_npm_hosts (by-domain cache) and
managed_host_ids (owned-id set). -/
structure ServiceState where
  current_npm_hosts : List (JVal × JVal)
  managed_host_ids : List JVal

/-- An API call issued through the NPM client by the service. -/
inductive ApiCall where
  | createHost (data : List (String × JVal))
  | updateHost (id : JVal) (data : List (String × JVal))

/-- Python dict merge of two dicts: models the source's unpacking of an
existing record updated by new data (TypeError when the left operand is
not a dict). -/
def pyMerge (existing : JVal) (upd : List (String × JVal)) : Except PyErr JVal :=
  match existing with
  | JVal.obj kvs => Except.ok (JVal.obj (upd.foldl (fun acc p => alistSet acc p.1 p.2) kvs))
  | _ => Except.error PyErr.typeError

/-- `EnvoyService._parse_meta` (envoy_service.py lines 333-353): dicts
pass through, an empty string and a JSONDecodeError both yield the
empty dict, a parsable string yields whatever json.loads returned (not
necessarily a dict), any other type yields the empty dict.  Total —
it never raises. -/
def parse_meta (jsonLoads : String → Option JVal) : JVal → JVal
  | JVal.obj kvs => JVal.obj kvs
  | JVal.str s =>
    if s == "" then JVal.obj []
    else
      match jsonLoads s with
      | some v => v
      | none => JVal.obj []
  | _ => JVal.obj []

/-- `EnvoyService._get_container_ip` (envoy_service.py lines 235-261):
prefer the network named by npm_config "network" when it exists and has
a non-empty ip, else the first network with a non-empty ip. -/
def get_container_ip (cfg : List (String × JVal)) (networks : List (String × NetworkInfo)) :
    Option String :=
  let preferred := dictGetD cfg "network" (JVal.str "")
  let fromPreferred :=
    if pyTruthy preferred then
      match networks.find? (fun p => JVal.beq (JVal.str p.1) preferred) with
      | some p => if p.2.ip_address != "" then some p.2.ip_address else none
      | none => none
    else none
  match fromPreferred with
  | some ip => some ip
  | none =>
    match networks.find? (fun p => p.2.ip_address != "") with
    | some p => some p.2.ip_address
    | none => none

/-- The certificate_id computation of `EnvoyService._prepare_host_data`
(envoy_service.py lines 293-301): the string "new" (case-insensitive)
passes through, other values go through int() with only ValueError
caught (falling back to 0 with a warning). -/
def cert_id_of (cfg : List (String × JVal)) : Except PyErr JVal :=
  match dictGetD cfg "certificate_id" (JVal.num 0) with
  | JVal.str s =>
    if pyLower s == "new" then Except.ok (JVal.str "new")
    else
      match pyIntOfString s with
      | some n => Except.ok (JVal.num n)
      | none => Except.ok (JVal.num 0)
  | v =>
    match pyIntCoerce v with
    | Except.ok n => Except.ok (JVal.num n)
    | Except.error PyErr.valueError => Except.ok (JVal.num 0)
    | Except.error e => Except.error e

/-- `EnvoyService._prepare_host_data` (envoy_service.py lines 263-331):
builds the host record sent to the API; int() on forward_port and
access_list_id is not guarded, booleans are str(...).lower() == true,
and forward_scheme is finally overwritten from the "scheme" key. -/
def prepare_host_data (now : String) (domain : JVal) (forward_host : String)
    (forward_port : JVal) (container_id : String) (cfg : List (String × JVal)) :
    Except PyErr (List (String × JVal)) :=
  let meta : JVal := JVal.obj [
    ("managed_by", JVal.str "EnvoyNPM"),
    ("container_id", JVal.str container_id),
    ("created_at", JVal.str now)]
  match cert_id_of cfg with
  | Except.error e => Except.error e
  | Except.ok certificate_id =>
    match pyIntCoerce (dictGetD cfg "forward_port" forward_port) with
    | Except.error e => Except.error e
    | Except.ok fp =>
      match pyIntCoerce (dictGetD cfg "access_list_id" (JVal.num 0)) with
      | Except.error e => Except.error e
      | Except.ok alid =>
        Except.ok (alistSet [
          ("domain_names", JVal.arr [domain]),
          ("forward_scheme", dictGetD cfg "forward_scheme" (JVal.str "http")),
          ("forward_host", JVal.str forward_host),
          ("forward_port", JVal.num fp),
          ("access_list_id", JVal.num alid),
          ("certificate_id", certificate_id),
          ("ssl_forced", JVal.bool (pyLower (pyStr (dictGetD cfg "ssl_forced" (JVal.bool false))) == "true")),
          ("hsts_enabled", JVal.bool (pyLower (pyStr (dictGetD cfg "hsts_enabled" (JVal.bool false))) == "true")),
          ("hsts_subdomains", JVal.bool (pyLower (pyStr (dictGetD cfg "hsts_subdomains" (JVal.bool false))) == "true")),
          ("http2_support", JVal.bool (pyLower (pyStr (dictGetD cfg "http2_support" (JVal.bool false))) == "true")),
          ("block_exploits", JVal.bool (pyLower (pyStr (dictGetD cfg "block_exploits" (JVal.bool true))) == "true")),
          ("caching_enabled", JVal.bool (pyLower (pyStr (dictGetD cfg "caching_enabled" (JVal.bool false))) == "true")),
          ("allow_websocket_upgrade", JVal.bool (pyLower (pyStr (dictGetD cfg "allow_websocket_upgrade" (JVal.bool false))) == "true")),
          ("advanced_config", dictGetD cfg "advanced_config" (JVal.str "")),
          ("meta", meta),
          ("enabled", JVal.bool true)]
          "forward_scheme" (dictGetD cfg "scheme" (JVal.str "http")))

/-- `EnvoyService.on_container_start` (envoy_service.py lines 104-184).
The four outcomes are: event ignored (no npm_config / no usable ip),
update of an owned host, warning-only refusal for a present unowned
host, and create for an absent domain.  The create-success branch reads
.get("id") off the value create_proxy_host returned. -/
def on_container_start (jsonLoads : String → Option JVal)
    (createH : List (String × JVal) → JVal)
    (updateH : JVal → List (String × JVal) → Bool)
    (now : String) (st : ServiceState) (ci : ContainerInfo) :
    Except PyErr (ServiceState × List ApiCall) :=
  match ci.npm_config with
  | none => Except.ok (st, [])
  | some cfg =>
    match dictIndex cfg "host" with
    | Except.error e => Except.error e
    | Except.ok domain =>
      match dictIndex cfg "port" with
      | Except.error e => Except.error e
      | Except.ok port =>
        match get_container_ip cfg ci.networks with
        | none => Except.ok (st, [])
        | some ip =>
          match jAlistGet st.current_npm_hosts domain with
          | some existing =>
            match pyIndexKey existing "id" with
            | Except.error e => Except.error e
            | Except.ok host_id =>
              match pyDotGet existing "meta" (JVal.str "\x7b\x7d") with
              | Except.error e => Except.error e
              | Except.ok metaRaw =>
                -- line 135: meta is parsed here but not used below
                let _meta := parse_meta jsonLoads metaRaw
                if jvalMem st.managed_host_ids host_id then
                  match prepare_host_data now domain ip port ci.id cfg with
                  | Except.error e => Except.error e
                  | Except.ok hd0 =>
                    let host_data := alistSet hd0 "enabled" (JVal.num 1)
                    if updateH host_id host_data then
                      match pyMerge existing host_data with
                      | Except.error e => Except.error e
                      | Except.ok merged =>
                        Except.ok
                          (⟨jAlistSet st.current_npm_hosts domain merged, st.managed_host_ids⟩,
                           [ApiCall.updateHost host_id host_data])
                    else Except.ok (st, [ApiCall.updateHost host_id host_data])
                else
                  -- manual host: warning only, no API call
                  Except.ok (st, [])
          | none =>
            match prepare_host_data now domain ip port ci.id cfg with
            | Except.error e => Except.error e
            | Except.ok host_data =>
              let created := createH host_data
              if pyTruthy created then
                match pyDotGet created "id" JVal.null with
                | Except.error e => Except.error e
                | Except.ok host_id =>
                  Except.ok (⟨jAlistSet st.current_npm_hosts domain created,
                    jvalInsert st.managed_host_ids host_id⟩,
                    [ApiCall.createHost host_data])
              else Except.ok (st, [ApiCall.createHost host_data])

/-- The loop body of `EnvoyService.on_container_stop` (envoy_service.py
lines 196-215), iterating over a snapshot of the cache items. -/
def stop_go (jsonLoads : String → Option JVal)
    (updateH : JVal → List (String × JVal) → Bool) (container_id : String) :
    List (JVal × JVal) → ServiceState → List ApiCall →
    Except PyErr (ServiceState × List ApiCall)
  | [], st, calls => Except.ok (st, calls)
  | (domain, host) :: rest, st, calls =>
    match pyDotGet host "id" JVal.null with
    | Except.error e => Except.error e
    | Except.ok host_id =>
      if jvalMem st.managed_host_ids host_id then
        match pyDotGet host "meta" (JVal.str "\x7b\x7d") with
        | Except.error e => Except.error e
        | Except.ok metaRaw =>
          match pyDotGet (parse_meta jsonLoads metaRaw) "container_id" JVal.null with
          | Except.error e => Except.error e
          | Except.ok mcid =>
            if JVal.beq mcid (JVal.str container_id) then
              if updateH host_id [("enabled", JVal.bool false)] then
                match pyMerge host [("enabled", JVal.bool false)] with
                | Except.error e => Except.error e
                | Except.ok merged =>
                  stop_go jsonLoads updateH container_id rest
                    { st with current_npm_hosts := jAlistSet st.current_npm_hosts domain merged }
                    (calls ++ [ApiCall.updateHost host_id [("enabled", JVal.bool false)]])
              else
                stop_go jsonLoads updateH container_id rest st
                  (calls ++ [ApiCall.updateHost host_id [("enabled", JVal.bool false)]])
            else stop_go jsonLoads updateH container_id rest st calls
      else stop_go jsonLoads updateH container_id rest st calls

/-- `EnvoyService.on_container_stop`: scan the cache for owned hosts
whose ownership metadata carries the stopped container id and disable
each with a body of exactly (enabled, false). -/
def on_container_stop (jsonLoads : String → Option JVal)
    (updateH : JVal → List (String × JVal) → Bool)
    (st : ServiceState) (container_id : String) :
    Except PyErr (ServiceState × List ApiCall) :=
  stop_go jsonLoads updateH container_id st.current_npm_hosts st []

/-- The loop body of `EnvoyService._load_npm_hosts` (envoy_service.py
lines 80-102). -/
def load_go (jsonLoads : String → Option JVal) :
    List JVal → ServiceState → Except PyErr ServiceState
  | [], st => Except.ok st
  | host :: rest, st =>
    match pyDotGet host "id" JVal.null with
    | Except.error e => Except.error e
    | Except.ok host_id =>
      match pyDotGet host "domain_names" JVal.null with
      | Except.error e => Except.error e
      | Except.ok dn =>
        match (if pyTruthy dn then
                 match pyDotGet host "domain_names" (JVal.arr []) with
                 | Except.error e => Except.error e
                 | Except.ok dn2 => pyIndex0 dn2
               else Except.ok JVal.null) with
        | Except.error e => Except.error e
        | Except.ok domain =>
          if pyTruthy host_id && pyTruthy domain then
            match pyDotGet host "meta" (JVal.str "\x7b\x7d") with
            | Except.error e => Except.error e
            | Except.ok metaRaw =>
              let meta := parse_meta jsonLoads metaRaw
              match pyDotGet meta "managed_by" JVal.null with
              | Except.error e => Except.error e
              | Except.ok mby =>
                let st1 : ServiceState :=
                  ⟨jAlistSet st.current_npm_hosts domain host, st.managed_host_ids⟩
                let st2 : ServiceState :=
                  if JVal.beq mby (JVal.str "EnvoyNPM")
                  then ⟨st1.current_npm_hosts, jvalInsert st1.managed_host_ids host_id⟩
                  else st1
                load_go jsonLoads rest st2
          else load_go jsonLoads rest st

/-- `EnvoyService._load_npm_hosts`: rebuild the cache from scratch off
the fetched host list. -/
def load_npm_hosts (jsonLoads : String → Option JVal) (hosts : List JVal) :
    Except PyErr ServiceState :=
  load_go jsonLoads hosts ⟨[], []⟩

def cfgC3 : List (String × JVal) := [
  ("host", JVal.str "app.example.com"),
  ("port", JVal.num 3000),
  ("ssl", JVal.bool false),
  ("enable_ws", JVal.bool false),
  ("enable_hsts", JVal.bool false),
  ("network", JVal.str ""),
  ("advanced_config", JVal.str "")]

def ciC3 : ContainerInfo :=
  ⟨"cid1", "app", "running", "img", [], [("bridge", ⟨"10.0.0.5", "", ""⟩)], some cfgC3⟩

/-- The record prepared for the C8 witness configuration. -/
def hdC8 : List (String × JVal) := [
  ("domain_names", JVal.arr [JVal.str "d"]),
  ("forward_scheme", JVal.str "http"),
  ("forward_host", JVal.str "1.2.3.4"),
  ("forward_port", JVal.num 80),
  ("access_list_id", JVal.num 0),
  ("certificate_id", JVal.num 0),
  ("ssl_forced", JVal.bool true),
  ("hsts_enabled", JVal.bool false),
  ("hsts_subdomains", JVal.bool false),
  ("http2_support", JVal.bool false),
  ("block_exploits", JVal.bool true),
  ("caching_enabled", JVal.bool false),
  ("allow_websocket_upgrade", JVal.bool false),
  ("advanced_config", JVal.str ""),
  ("meta", JVal.obj [("managed_by", JVal.str "EnvoyNPM"), ("container_id", JVal.str "c"),
    ("created_at", JVal.str "t")]),
  ("enabled", JVal.bool true)]

def hostUnowned : JVal := JVal.obj [("id", JVal.num 9), ("meta", JVal.str "\x7b\x7d")]

def stUnowned : ServiceState := ⟨[(JVal.str "app.example.com", hostUnowned)], []⟩

def hostOwned : JVal := JVal.obj [("id", JVal.num 1),
  ("meta", JVal.obj [("managed_by", JVal.str "EnvoyNPM"), ("container_id", JVal.str "c1")])]

def stOwned : ServiceState := ⟨[(JVal.str "d.com", hostOwned)], [JVal.num 1]⟩

/-- The cache record after the stop handler disables hostOwned. -/
def hostOwnedDisabled : JVal := JVal.obj [("id", JVal.num 1),
  ("meta", JVal.obj [("managed_by", JVal.str "EnvoyNPM"), ("container_id", JVal.str "c1")]),
  ("enabled", JVal.bool false)]

/-- A cache entry in the shape the stop loop can traverse without
raising: the host record is a dict and its parsed metadata is a dict. -/
def entryWF (jsonLoads : String → Option JVal) (e : JVal × JVal) : Bool :=
  match e.2 with
  | JVal.obj kvs =>
    match parse_meta jsonLoads (dictGetD kvs "meta" (JVal.str "\x7b\x7d")) with
    | JVal.obj _ => true
    | _ => false
  | _ => false

/-- The stop loop's selection predicate: the host id is owned and the
ownership metadata's container_id equals the stopped container id. -/
def stopMatches (jsonLoads : String → Option JVal) (M : List JVal) (cid : String)
    (e : JVal × JVal) : Bool :=
  match e.2 with
  | JVal.obj kvs =>
    jvalMem M (dictGetD kvs "id" JVal.null) &&
    (match parse_meta jsonLoads (dictGetD kvs "meta" (JVal.str "\x7b\x7d")) with
     | JVal.obj mkvs => JVal.beq (dictGetD mkvs "container_id" JVal.null) (JVal.str cid)
     | _ => false)
  | _ => false

/-- The id the stop loop reads off a cache entry. -/
def hostIdOf (e : JVal × JVal) : JVal :=
  match e.2 with
  | JVal.obj kvs => dictGetD kvs "id" JVal.null
  | _ => JVal.null

/-- The record prepared for ciC3 at timestamp t. -/
def hdC3 : List (String × JVal) := [
  ("domain_names", JVal.arr [JVal.str "app.example.com"]),
  ("forward_scheme", JVal.str "http"),
  ("forward_host", JVal.str "10.0.0.5"),
  ("forward_port", JVal.num 3000),
  ("access_list_id", JVal.num 0),
  ("certificate_id", JVal.num 0),
  ("ssl_forced", JVal.bool false),
  ("hsts_enabled", JVal.bool false),
  ("hsts_subdomains", JVal.bool false),
  ("http2_support", JVal.bool false),
  ("block_exploits", JVal.bool true),
  ("caching_enabled", JVal.bool false),
  ("allow_websocket_upgrade", JVal.bool false),
  ("advanced_config", JVal.str ""),
  ("meta", JVal.obj [("managed_by", JVal.str "EnvoyNPM"), ("container_id", JVal.str "cid1"),
    ("created_at", JVal.str "t")]),
  ("enabled", JVal.bool true)]

/-- A cache where the host for the C3 domain is owned. -/
def stOwned9 : ServiceState := ⟨[(JVal.str "app.example.com", hostUnowned)], [JVal.num 9]⟩

/-! Theorems settling the claims, with their helper lemmas. -/

/-! Helper lemmas about the retry loop. -/

/-- Splitting off the first backoff delay of a delay schedule. -/
lemma range_map_pow (B attempt f : Nat) :
    (List.range (f + 1)).map (fun i => B * 2 ^ (attempt + i)) =
      (B * 2 ^ attempt) :: (List.range f).map (fun i => B * 2 ^ (attempt + 1 + i)) := by
  simp only [List.range_succ_eq_map, List.map_cons, List.map_map, List.cons.injEq]
  refine ⟨by simp, ?_⟩
  apply List.map_congr_left
  intro a _
  simp only [Function.comp_apply]
  congr 2
  omega

/-- When every attempt raises a transport fault, the loop runs through
its whole budget, sleeping B * 2 ^ attempt between attempts, and ends
with the response attached to the fault (if any). -/
lemma mrGo_all_exc (outcome : Nat → AttemptOutcome) (login : Nat → Bool)
    (N B : Nat) (a : Option Response)
    (houtcome : ∀ i, outcome i = AttemptOutcome.exc a) :
    ∀ fuel attempt h l s, attempt + fuel = N → 1 ≤ fuel →
      mrGo outcome login N B fuel attempt h l s =
        ⟨a, h + fuel, l, s ++ (List.range (fuel - 1)).map (fun i => B * 2 ^ (attempt + i))⟩ := by
  intro fuel
  induction fuel with
  | zero => intro attempt h l s _ hcontra; omega
  | succ f ih =>
    intro attempt h l s hsum _
    simp only [mrGo, houtcome]
    by_cases hf : f = 0
    · subst hf
      rw [if_pos (by omega : attempt = N - 1)]
      simp
    · rw [if_neg (by omega : ¬ attempt = N - 1),
        ih (attempt + 1) (h + 1) l (s ++ [B * 2 ^ attempt]) (by omega) (by omega)]
      obtain ⟨g, rfl⟩ : ∃ g, f = g + 1 := ⟨f - 1, by omega⟩
      simp only [MRResult.mk.injEq, true_and]
      refine ⟨by omega, ?_⟩
      rw [Nat.add_sub_cancel, Nat.succ_sub_one, range_map_pow, List.append_assoc]
      rfl

/-- When every attempt yields a 401 and every relogin succeeds, the
loop reauthenticates on each iteration except the last. -/
lemma mrGo_all_401 (outcome : Nat → AttemptOutcome) (login : Nat → Bool)
    (N B : Nat) (r : Response)
    (houtcome : ∀ i, outcome i = AttemptOutcome.response r)
    (hs : r.status = 401) (hlogin : ∀ j, login j = true) :
    ∀ fuel attempt h l s, attempt + fuel = N → 1 ≤ fuel →
      mrGo outcome login N B fuel attempt h l s =
        ⟨some r, h + fuel, l + (fuel - 1), s⟩ := by
  intro fuel
  induction fuel with
  | zero => intro attempt h l s _ hcontra; omega
  | succ f ih =>
    intro attempt h l s hsum _
    simp only [mrGo, houtcome]
    by_cases hf : f = 0
    · subst hf
      rw [if_neg (by omega : ¬ (r.status = 401 ∧ attempt < N - 1))]
      simp
    · rw [if_pos ⟨hs, by omega⟩, hlogin, if_pos rfl,
        ih (attempt + 1) (h + 1) (l + 1) s (by omega) (by omega)]
      simp only [MRResult.mk.injEq, true_and, and_true]
      omega

/-- C1, counterexample: with the default budget of 3, every attempt
answering 401 and every re-login succeeding, the client performs TWO
authenticate calls, not one — after the first 401 and a successful
reauth, the second 401 triggers a further re-authentication instead of
being surfaced verbatim, refuting the reauth-once claim. -/
theorem c1_reauth_once_counterexample :
    make_request (fun _ => AttemptOutcome.response r401c) (fun _ => true) 3 5 =
      ⟨some r401c, 3, 2, []⟩ ∧
    (make_request (fun _ => AttemptOutcome.response r401c) (fun _ => true) 3 5).loginCalls ≠ 1 :=
  ⟨rfl, by decide⟩

/-- C1 (amended): re-authentication is attempted on every 401 response
while attempts remain (attempt below maxRetries - 1), not at most once
per logical request.  After a first 401 and a successful reauth exactly
one retried request occurs, and when that retry succeeds the client has
made 2 HTTP calls and 1 authenticate call; but when every attempt keeps
answering 401 and reauth keeps succeeding, the client performs
maxRetries HTTP calls and maxRetries - 1 authenticate calls, returning
the final 401 — a second 401 after reauth is surfaced without further
reauth only on the final attempt. -/
theorem c1_reauth_amended :
    (∀ (outcome : Nat → AttemptOutcome) (login : Nat → Bool) (N B : Nat) (r401 r2 : Response),
      2 ≤ N → outcome 0 = AttemptOutcome.response r401 → r401.status = 401 →
      login 0 = true → outcome 1 = AttemptOutcome.response r2 → r2.status ≠ 401 →
      make_request outcome login N B = ⟨some r2, 2, 1, []⟩)
    ∧ (∀ (outcome : Nat → AttemptOutcome) (login : Nat → Bool) (N B : Nat) (r401 : Response),
      1 ≤ N → (∀ i, outcome i = AttemptOutcome.response r401) → r401.status = 401 →
      (∀ j, login j = true) →
      make_request outcome login N B = ⟨some r401, N, N - 1, []⟩) := by
  constructor
  · intro outcome login N B r401 r2 hN h0 hs hl h1 hs2
    obtain ⟨m, rfl⟩ : ∃ m, N = m + 2 := ⟨N - 2, by omega⟩
    unfold make_request
    simp only [mrGo, h0]
    rw [if_pos ⟨hs, by omega⟩, hl, if_pos rfl]
    simp only [mrGo, h1]
    rw [if_neg (by simp [hs2] : ¬ (r2.status = 401 ∧ 0 + 1 < m + 2 - 1))]
  · intro outcome login N B r401 hN houtcome hs hlogin
    unfold make_request
    rw [mrGo_all_401 outcome login N B r401 houtcome hs hlogin N 0 0 0 [] (by omega) hN]
    simp

/-- C1 witness: the amended claim instantiated at budget 3 with
concrete outcome schedules. -/
theorem c1_reauth_amended_witness :
    make_request (fun i => if i = 0 then AttemptOutcome.response r401c
      else AttemptOutcome.response r200c) (fun _ => true) 3 5 = ⟨some r200c, 2, 1, []⟩ ∧
    make_request (fun _ => AttemptOutcome.response r401c) (fun _ => true) 3 5 =
      ⟨some r401c, 3, 3 - 1, []⟩ :=
  ⟨c1_reauth_amended.1 _ _ 3 5 r401c r200c (by decide) rfl rfl rfl rfl (by decide),
   c1_reauth_amended.2 _ _ 3 5 r401c (by decide) (fun _ => rfl) rfl (fun _ => rfl)⟩

/-- C2, counterexample: when the HTTP call returns a 500 response on a
3-attempt budget, the client makes exactly ONE underlying call and
returns that 500 response immediately — not 3 calls as claimed: a 5xx
response does not consume the retry loop. -/
theorem c2_five_hundred_counterexample :
    make_request (fun _ => AttemptOutcome.response r500c) (fun _ => true) 3 5 =
      ⟨some r500c, 1, 0, []⟩ ∧
    (make_request (fun _ => AttemptOutcome.response r500c) (fun _ => true) 3 5).httpCalls ≠ 3 :=
  ⟨rfl, by decide⟩

/-- C2 (amended): a 500 response is returned to the caller immediately
after exactly one underlying HTTP call — like every non-401 status,
5xx is not retried — and createHost consequently returns absent; only a
transport-level fault carrying an attached 500 response consumes the
full 3-attempt budget (3 calls, backoff 5 and 10 seconds, then the
attached 500 is returned). -/
theorem c2_five_hundred_amended :
    make_request (fun _ => AttemptOutcome.response r500c) (fun _ => true) 3 5 =
      ⟨some r500c, 1, 0, []⟩ ∧
    create_proxy_host (make_request (fun _ => AttemptOutcome.response r500c)
      (fun _ => true) 3 5).response = JVal.null ∧
    make_request (fun _ => AttemptOutcome.exc (some r500c)) (fun _ => true) 3 5 =
      ⟨some r500c, 3, 0, [5, 10]⟩ :=
  ⟨rfl, rfl, rfl⟩

/-- C5: for a transport-level fault persisting across all attempts, the
client makes exactly maxRetries underlying HTTP calls, sleeps
B * 2 ^ attempt between consecutive attempts, and finally returns the
response attached to the fault when one exists, else absent. -/
theorem c5_transport_fault_retry_budget
    (outcome : Nat → AttemptOutcome) (login : Nat → Bool)
    (N B : Nat) (a : Option Response)
    (hN : 1 ≤ N) (houtcome : ∀ i, outcome i = AttemptOutcome.exc a) :
    make_request outcome login N B =
      ⟨a, N, 0, (List.range (N - 1)).map (fun i => B * 2 ^ i)⟩ := by
  unfold make_request
  rw [mrGo_all_exc outcome login N B a houtcome N 0 0 0 [] (by omega) hN]
  simp

/-- C5 witness: budget 3, base delay 5, each attempt raising a fault
carrying a 500 response: 3 calls, sleeps of 5 and 10 seconds, and the
attached response is returned. -/
theorem c5_transport_fault_retry_budget_witness :
    make_request (fun _ => AttemptOutcome.exc (some r500c)) (fun _ => true) 3 5 =
      ⟨some r500c, 3, 0, (List.range (3 - 1)).map (fun i => 5 * 2 ^ i)⟩ :=
  c5_transport_fault_retry_budget _ _ 3 5 (some r500c) (by decide) (fun _ => rfl)

/-- C3, as a code bug: create_proxy_host does return the newly assigned
numeric id on HTTP 201 (first conjunct), but the create-success branch
of on_container_start then calls .get("id") on that integer, so instead
of inserting the returned host into the cache and marking its id owned
the whole reconciliation raises AttributeError (second conjunct). -/
theorem c3_create_id_attribute_error :
    create_proxy_host (some ⟨201, JVal.obj [("id", JVal.num 123)]⟩) = JVal.num 123 ∧
    on_container_start (fun _ => none) (fun _ => JVal.num 123) (fun _ _ => true)
      "2024-01-01T00:00:00" ⟨[], []⟩ ciC3 = Except.error PyErr.attributeError :=
  ⟨rfl, rfl⟩

/-- C10: for an environment with both NPM_HOST and NPM_PORT where the
NPM_PORT value is not a valid decimal integer string, the extractor
raises ValueError rather than answering not-proxy-enabled, and the
generic handler of get_container_info turns that into None, skipping
the container as if its inspection had failed. -/
theorem c10_invalid_port_raises (d : Inspection) (h p : String)
    (hh : envLookup (parse_container_env d.envList) "NPM_HOST" = some h)
    (hp : envLookup (parse_container_env d.envList) "NPM_PORT" = some p)
    (hbad : pyIntOfString p = none) :
    extract_npm_env (parse_container_env d.envList) = Except.error PyErr.valueError ∧
    get_container_info (some d) = none := by
  have hext : extract_npm_env (parse_container_env d.envList) = Except.error PyErr.valueError := by
    simp only [extract_npm_env, hh, hp, hbad]
  refine ⟨hext, ?_⟩
  simp only [get_container_info, hext]

/-- C10 witness: NPM_PORT=80x. -/
theorem c10_invalid_port_raises_witness :
    extract_npm_env (parse_container_env ["NPM_HOST=a.com", "NPM_PORT=80x"]) =
      Except.error PyErr.valueError ∧
    get_container_info (some ⟨"i", "n", "running", "img", ["NPM_HOST=a.com", "NPM_PORT=80x"], []⟩) =
      none :=
  c10_invalid_port_raises ⟨"i", "n", "running", "img", ["NPM_HOST=a.com", "NPM_PORT=80x"], []⟩
    "a.com" "80x" rfl rfl rfl

/-- C9: when the stored metadata string is unparsable JSON, parsing
yields the empty metadata without raising (parse_meta is total), so a
host carrying it has no ownership tag: loading the host list caches it
under its domain but leaves the owned-id set empty, making the host
manually-owned by default. -/
theorem c9_malformed_meta (jsonLoads : String → Option JVal) (s : String)
    (hbad : jsonLoads s = none) :
    parse_meta jsonLoads (JVal.str s) = JVal.obj [] ∧
    ∀ hid dom : JVal, pyTruthy hid = true → pyTruthy dom = true →
      load_npm_hosts jsonLoads
        [JVal.obj [("id", hid), ("domain_names", JVal.arr [dom]), ("meta", JVal.str s)]] =
        Except.ok ⟨[(dom, JVal.obj [("id", hid), ("domain_names", JVal.arr [dom]),
          ("meta", JVal.str s)])], []⟩ := by
  have hpm : parse_meta jsonLoads (JVal.str s) = JVal.obj [] := by
    simp only [parse_meta]
    rw [hbad]
    cases hs : (s == "") <;> simp
  refine ⟨hpm, ?_⟩
  intro hid dom h1 h2
  show (if pyTruthy hid && pyTruthy dom then
          (match pyDotGet (parse_meta jsonLoads (JVal.str s)) "managed_by" JVal.null with
           | Except.error e => Except.error e
           | Except.ok mby =>
             load_go jsonLoads []
               (if JVal.beq mby (JVal.str "EnvoyNPM")
                then ⟨[(dom, JVal.obj [("id", hid), ("domain_names", JVal.arr [dom]),
                        ("meta", JVal.str s)])], jvalInsert [] hid⟩
                else ⟨[(dom, JVal.obj [("id", hid), ("domain_names", JVal.arr [dom]),
                        ("meta", JVal.str s)])], []⟩))
        else Except.ok ⟨[], []⟩) =
    Except.ok ⟨[(dom, JVal.obj [("id", hid), ("domain_names", JVal.arr [dom]),
      ("meta", JVal.str s)])], []⟩
  rw [h1, h2, hpm]
  rfl

/-- C9 witness: a truncated JSON object string as stored metadata. -/
theorem c9_malformed_meta_witness :
    parse_meta (fun _ => none) (JVal.str "\x7bbad") = JVal.obj [] ∧
    load_npm_hosts (fun _ => none)
      [JVal.obj [("id", JVal.num 7), ("domain_names", JVal.arr [JVal.str "a.com"]),
        ("meta", JVal.str "\x7bbad")]] =
      Except.ok ⟨[(JVal.str "a.com", JVal.obj [("id", JVal.num 7),
        ("domain_names", JVal.arr [JVal.str "a.com"]), ("meta", JVal.str "\x7bbad")])], []⟩ :=
  ⟨(c9_malformed_meta (fun _ => none) "\x7bbad" rfl).1,
   (c9_malformed_meta (fun _ => none) "\x7bbad" rfl).2 (JVal.num 7) (JVal.str "a.com") rfl rfl⟩

/-- A successful extraction carries exactly the lower-cased
exact-match-against-true booleans for the three flag variables. -/
lemma extract_npm_env_flags (env : List (String × String)) (cfg : List (String × JVal))
    (hcfg : extract_npm_env env = Except.ok (some cfg)) :
    dictGetD cfg "ssl" JVal.null =
      JVal.bool (pyLower (envGetD env "NPM_SSL" "false") == "true") ∧
    dictGetD cfg "enable_ws" JVal.null =
      JVal.bool (pyLower (envGetD env "NPM_ENABLE_WS" "false") == "true") ∧
    dictGetD cfg "enable_hsts" JVal.null =
      JVal.bool (pyLower (envGetD env "NPM_ENABLE_HSTS" "false") == "true") := by
  cases hh : envLookup env "NPM_HOST" with
  | none => simp [extract_npm_env, hh] at hcfg
  | some h0 =>
    cases hp : envLookup env "NPM_PORT" with
    | none => simp [extract_npm_env, hh, hp] at hcfg
    | some p0 =>
      cases hn : pyIntOfString p0 with
      | none => simp [extract_npm_env, hh, hp, hn] at hcfg
      | some n =>
        simp only [extract_npm_env, hh, hp, hn, Except.ok.injEq, Option.some.injEq] at hcfg
        subst hcfg
        exact ⟨rfl, rfl, rfl⟩

/-- A successfully prepared host record carries exactly the
str(...).lower() == true booleans for its flag fields. -/
lemma prepare_host_data_flags (now : String) (domain : JVal) (ip : String)
    (port : JVal) (cid : String) (cfg hd : List (String × JVal))
    (hpd : prepare_host_data now domain ip port cid cfg = Except.ok hd) :
    dictGetD hd "ssl_forced" JVal.null =
      JVal.bool (pyLower (pyStr (dictGetD cfg "ssl_forced" (JVal.bool false))) == "true") ∧
    dictGetD hd "hsts_enabled" JVal.null =
      JVal.bool (pyLower (pyStr (dictGetD cfg "hsts_enabled" (JVal.bool false))) == "true") ∧
    dictGetD hd "hsts_subdomains" JVal.null =
      JVal.bool (pyLower (pyStr (dictGetD cfg "hsts_subdomains" (JVal.bool false))) == "true") ∧
    dictGetD hd "http2_support" JVal.null =
      JVal.bool (pyLower (pyStr (dictGetD cfg "http2_support" (JVal.bool false))) == "true") ∧
    dictGetD hd "block_exploits" JVal.null =
      JVal.bool (pyLower (pyStr (dictGetD cfg "block_exploits" (JVal.bool true))) == "true") ∧
    dictGetD hd "caching_enabled" JVal.null =
      JVal.bool (pyLower (pyStr (dictGetD cfg "caching_enabled" (JVal.bool false))) == "true") ∧
    dictGetD hd "allow_websocket_upgrade" JVal.null =
      JVal.bool (pyLower (pyStr (dictGetD cfg "allow_websocket_upgrade" (JVal.bool false))) == "true") := by
  cases hc : cert_id_of cfg with
  | error e => simp [prepare_host_data, hc] at hpd
  | ok certificate_id =>
    cases hf : pyIntCoerce (dictGetD cfg "forward_port" port) with
    | error e => simp [prepare_host_data, hc, hf] at hpd
    | ok fp =>
      cases ha : pyIntCoerce (dictGetD cfg "access_list_id" (JVal.num 0)) with
      | error e => simp [prepare_host_data, hc, hf, ha] at hpd
      | ok alid =>
        simp only [prepare_host_data, hc, hf, ha, Except.ok.injEq] at hpd
        subst hpd
        exact ⟨rfl, rfl, rfl, rfl, rfl, rfl, rfl⟩

/-- C8: every boolean NPM environment variable and every boolean flag
field of the prepared host record parses to true exactly when the
string equals "true" case-insensitively; any other string, including
"yes" and "1", yields false (shown generally for NPM_SSL,
NPM_ENABLE_WS and NPM_ENABLE_HSTS and for all seven record flags —
ssl_forced, hsts_enabled, hsts_subdomains, http2_support,
block_exploits, caching_enabled, allow_websocket_upgrade — and
concretely for "yes", "1" and "TRUE"). -/
theorem c8_bool_true_exact :
    (∀ (env : List (String × String)) (cfg : List (String × JVal)) (s : String),
      extract_npm_env env = Except.ok (some cfg) →
      envLookup env "NPM_SSL" = some s →
      (dictGetD cfg "ssl" JVal.null = JVal.bool true ↔ pyLower s = "true"))
    ∧ (∀ (env : List (String × String)) (cfg : List (String × JVal)) (s : String),
      extract_npm_env env = Except.ok (some cfg) →
      envLookup env "NPM_ENABLE_WS" = some s →
      (dictGetD cfg "enable_ws" JVal.null = JVal.bool true ↔ pyLower s = "true"))
    ∧ (∀ (env : List (String × String)) (cfg : List (String × JVal)) (s : String),
      extract_npm_env env = Except.ok (some cfg) →
      envLookup env "NPM_ENABLE_HSTS" = some s →
      (dictGetD cfg "enable_hsts" JVal.null = JVal.bool true ↔ pyLower s = "true"))
    ∧ (∀ (now : String) (domain : JVal) (ip : String) (port : JVal) (cid : String)
        (cfg hd : List (String × JVal)) (s : String),
      prepare_host_data now domain ip port cid cfg = Except.ok hd →
      dictGetD cfg "ssl_forced" (JVal.bool false) = JVal.str s →
      (dictGetD hd "ssl_forced" JVal.null = JVal.bool true ↔ pyLower s = "true"))
    ∧ (∀ (now : String) (domain : JVal) (ip : String) (port : JVal) (cid : String)
        (cfg hd : List (String × JVal)) (s : String),
      prepare_host_data now domain ip port cid cfg = Except.ok hd →
      dictGetD cfg "hsts_enabled" (JVal.bool false) = JVal.str s →
      (dictGetD hd "hsts_enabled" JVal.null = JVal.bool true ↔ pyLower s = "true"))
    ∧ (∀ (now : String) (domain : JVal) (ip : String) (port : JVal) (cid : String)
        (cfg hd : List (String × JVal)) (s : String),
      prepare_host_data now domain ip port cid cfg = Except.ok hd →
      dictGetD cfg "hsts_subdomains" (JVal.bool false) = JVal.str s →
      (dictGetD hd "hsts_subdomains" JVal.null = JVal.bool true ↔ pyLower s = "true"))
    ∧ (∀ (now : String) (domain : JVal) (ip : String) (port : JVal) (cid : String)
        (cfg hd : List (String × JVal)) (s : String),
      prepare_host_data now domain ip port cid cfg = Except.ok hd →
      dictGetD cfg "http2_support" (JVal.bool false) = JVal.str s →
      (dictGetD hd "http2_support" JVal.null = JVal.bool true ↔ pyLower s = "true"))
    ∧ (∀ (now : String) (domain : JVal) (ip : String) (port : JVal) (cid : String)
        (cfg hd : List (String × JVal)) (s : String),
      prepare_host_data now domain ip port cid cfg = Except.ok hd →
      dictGetD cfg "block_exploits" (JVal.bool true) = JVal.str s →
      (dictGetD hd "block_exploits" JVal.null = JVal.bool true ↔ pyLower s = "true"))
    ∧ (∀ (now : String) (domain : JVal) (ip : String) (port : JVal) (cid : String)
        (cfg hd : List (String × JVal)) (s : String),
      prepare_host_data now domain ip port cid cfg = Except.ok hd →
      dictGetD cfg "caching_enabled" (JVal.bool false) = JVal.str s →
      (dictGetD hd "caching_enabled" JVal.null = JVal.bool true ↔ pyLower s = "true"))
    ∧ (∀ (now : String) (domain : JVal) (ip : String) (port : JVal) (cid : String)
        (cfg hd : List (String × JVal)) (s : String),
      prepare_host_data now domain ip port cid cfg = Except.ok hd →
      dictGetD cfg "allow_websocket_upgrade" (JVal.bool false) = JVal.str s →
      (dictGetD hd "allow_websocket_upgrade" JVal.null = JVal.bool true ↔ pyLower s = "true"))
    ∧ extract_npm_env [("NPM_HOST", "a"), ("NPM_PORT", "80"), ("NPM_SSL", "yes")] =
        Except.ok (some [("host", JVal.str "a"), ("port", JVal.num 80),
          ("ssl", JVal.bool false), ("enable_ws", JVal.bool false),
          ("enable_hsts", JVal.bool false), ("network", JVal.str ""),
          ("advanced_config", JVal.str "")])
    ∧ extract_npm_env [("NPM_HOST", "a"), ("NPM_PORT", "80"), ("NPM_SSL", "1")] =
        Except.ok (some [("host", JVal.str "a"), ("port", JVal.num 80),
          ("ssl", JVal.bool false), ("enable_ws", JVal.bool false),
          ("enable_hsts", JVal.bool false), ("network", JVal.str ""),
          ("advanced_config", JVal.str "")])
    ∧ extract_npm_env [("NPM_HOST", "a"), ("NPM_PORT", "80"), ("NPM_SSL", "TRUE")] =
        Except.ok (some [("host", JVal.str "a"), ("port", JVal.num 80),
          ("ssl", JVal.bool true), ("enable_ws", JVal.bool false),
          ("enable_hsts", JVal.bool false), ("network", JVal.str ""),
          ("advanced_config", JVal.str "")]) := by
  refine ⟨?_, ?_, ?_, ?_, ?_, ?_, ?_, ?_, ?_, ?_, rfl, rfl, rfl⟩
  · intro env cfg s hcfg hs
    rw [(extract_npm_env_flags env cfg hcfg).1,
      show envGetD env "NPM_SSL" "false" = s by simp [envGetD, hs]]
    simp
  · intro env cfg s hcfg hs
    rw [(extract_npm_env_flags env cfg hcfg).2.1,
      show envGetD env "NPM_ENABLE_WS" "false" = s by simp [envGetD, hs]]
    simp
  · intro env cfg s hcfg hs
    rw [(extract_npm_env_flags env cfg hcfg).2.2,
      show envGetD env "NPM_ENABLE_HSTS" "false" = s by simp [envGetD, hs]]
    simp
  · intro now domain ip port cid cfg hd s hpd hv
    rw [(prepare_host_data_flags now domain ip port cid cfg hd hpd).1, hv]
    simp [pyStr]
  · intro now domain ip port cid cfg hd s hpd hv
    rw [(prepare_host_data_flags now domain ip port cid cfg hd hpd).2.1, hv]
    simp [pyStr]
  · intro now domain ip port cid cfg hd s hpd hv
    rw [(prepare_host_data_flags now domain ip port cid cfg hd hpd).2.2.1, hv]
    simp [pyStr]
  · intro now domain ip port cid cfg hd s hpd hv
    rw [(prepare_host_data_flags now domain ip port cid cfg hd hpd).2.2.2.1, hv]
    simp [pyStr]
  · intro now domain ip port cid cfg hd s hpd hv
    rw [(prepare_host_data_flags now domain ip port cid cfg hd hpd).2.2.2.2.1, hv]
    simp [pyStr]
  · intro now domain ip port cid cfg hd s hpd hv
    rw [(prepare_host_data_flags now domain ip port cid cfg hd hpd).2.2.2.2.2.1, hv]
    simp [pyStr]
  · intro now domain ip port cid cfg hd s hpd hv
    rw [(prepare_host_data_flags now domain ip port cid cfg hd hpd).2.2.2.2.2.2, hv]
    simp [pyStr]

/-- C8 witness: concrete instances of the general parsing conjuncts,
with the record flags shown on a record prepared from ssl_forced "True"
and hsts_enabled "yes" (only the exact word true, case-insensitively,
parses to true). -/
theorem c8_bool_true_exact_witness :
    (dictGetD [("host", JVal.str "a"), ("port", JVal.num 80), ("ssl", JVal.bool true),
      ("enable_ws", JVal.bool false), ("enable_hsts", JVal.bool false),
      ("network", JVal.str ""), ("advanced_config", JVal.str "")] "ssl" JVal.null =
        JVal.bool true ↔ pyLower "TRUE" = "true") ∧
    (dictGetD hdC8 "ssl_forced" JVal.null = JVal.bool true ↔ pyLower "True" = "true") ∧
    (dictGetD hdC8 "hsts_enabled" JVal.null = JVal.bool true ↔ pyLower "yes" = "true") :=
  ⟨c8_bool_true_exact.1 [("NPM_HOST", "a"), ("NPM_PORT", "80"), ("NPM_SSL", "TRUE")] _ "TRUE" rfl rfl,
   c8_bool_true_exact.2.2.2.1 "t" (JVal.str "d") "1.2.3.4" (JVal.num 80) "c"
     [("ssl_forced", JVal.str "True"), ("hsts_enabled", JVal.str "yes")] hdC8 "True" rfl rfl,
   c8_bool_true_exact.2.2.2.2.1 "t" (JVal.str "d") "1.2.3.4" (JVal.num 80) "c"
     [("ssl_forced", JVal.str "True"), ("hsts_enabled", JVal.str "yes")] hdC8 "yes" rfl rfl⟩

/-- Every call the stop loop emits targets an id that is owned at loop
entry (the loop never changes the owned-id set). -/
lemma stop_go_calls (jsonLoads : String → Option JVal)
    (updateH : JVal → List (String × JVal) → Bool) (cid : String) :
    ∀ (entries : List (JVal × JVal)) (st : ServiceState) (calls : List ApiCall)
      (st2 : ServiceState) (calls2 : List ApiCall),
      stop_go jsonLoads updateH cid entries st calls = Except.ok (st2, calls2) →
      ∀ c ∈ calls2, c ∈ calls ∨
        ∃ hid data, c = ApiCall.updateHost hid data ∧
          jvalMem st.managed_host_ids hid = true := by
  intro entries
  induction entries with
  | nil =>
    intro st calls st2 calls2 hrun c hc
    simp only [stop_go, Except.ok.injEq, Prod.mk.injEq] at hrun
    obtain ⟨-, h2⟩ := hrun
    subst h2
    exact Or.inl hc
  | cons e rest ih =>
    obtain ⟨domain, host⟩ := e
    intro st calls st2 calls2 hrun c hc
    simp only [stop_go] at hrun
    split at hrun
    · exact absurd hrun (by simp)
    rename_i host_id hid
    split at hrun
    case isTrue hmem =>
      split at hrun
      · exact absurd hrun (by simp)
      rename_i metaRaw hmeta
      split at hrun
      · exact absurd hrun (by simp)
      rename_i mcid hmc
      split at hrun
      case isTrue hbeq =>
        split at hrun
        case isTrue hupd =>
          split at hrun
          · exact absurd hrun (by simp)
          rename_i merged hmg
          rcases ih _ _ _ _ hrun c hc with h | ⟨hid2, data, hc2, hmem2⟩
          · rcases List.mem_append.mp h with h | h
            · exact Or.inl h
            · have := List.mem_singleton.mp h
              subst this
              exact Or.inr ⟨host_id, [("enabled", JVal.bool false)], rfl, hmem⟩
          · exact Or.inr ⟨hid2, data, hc2, hmem2⟩
        case isFalse hupd =>
          rcases ih _ _ _ _ hrun c hc with h | ⟨hid2, data, hc2, hmem2⟩
          · rcases List.mem_append.mp h with h | h
            · exact Or.inl h
            · have := List.mem_singleton.mp h
              subst this
              exact Or.inr ⟨host_id, [("enabled", JVal.bool false)], rfl, hmem⟩
          · exact Or.inr ⟨hid2, data, hc2, hmem2⟩
      case isFalse hbeq =>
        exact ih _ _ _ _ hrun c hc
    case isFalse hmem =>
      exact ih _ _ _ _ hrun c hc

/-- C4: ownership gating.  A start event whose domain is cached with a
host whose id is outside the owned-id set performs no API call at all
and leaves the state untouched (the warning-only branch), and every
call the stop handler ever issues is an updateHost aimed at an id that
was in the owned-id set; so no create, update or disable is ever issued
against a non-owned host by either reconciliation path. -/
theorem c4_ownership_gating :
    (∀ (jsonLoads : String → Option JVal) (createH : List (String × JVal) → JVal)
       (updateH : JVal → List (String × JVal) → Bool) (now : String)
       (st : ServiceState) (ci : ContainerInfo) (cfg : List (String × JVal))
       (domain port : JVal) (ip : String) (kvs : List (String × JVal)) (host_id : JVal),
      ci.npm_config = some cfg →
      dictIndex cfg "host" = Except.ok domain →
      dictIndex cfg "port" = Except.ok port →
      get_container_ip cfg ci.networks = some ip →
      jAlistGet st.current_npm_hosts domain = some (JVal.obj kvs) →
      dictIndex kvs "id" = Except.ok host_id →
      jvalMem st.managed_host_ids host_id = false →
      on_container_start jsonLoads createH updateH now st ci = Except.ok (st, []))
    ∧ (∀ (jsonLoads : String → Option JVal)
        (updateH : JVal → List (String × JVal) → Bool)
        (st : ServiceState) (cid : String) (st2 : ServiceState) (calls : List ApiCall),
      on_container_stop jsonLoads updateH st cid = Except.ok (st2, calls) →
      ∀ c ∈ calls, ∃ hid data, c = ApiCall.updateHost hid data ∧
        jvalMem st.managed_host_ids hid = true) := by
  constructor
  · intro jsonLoads createH updateH now st ci cfg domain port ip kvs host_id
      hnpm hhost hport hip hlook hid hmem
    simp only [on_container_start, hnpm, hhost, hport, hip, hlook, pyIndexKey, hid,
      pyDotGet, hmem, Bool.false_eq_true, if_false]
  · intro jsonLoads updateH st cid st2 calls hrun c hc
    rcases stop_go_calls jsonLoads updateH cid st.current_npm_hosts st [] st2 calls hrun c hc with
      h | h
    · exact absurd h (List.not_mem_nil c)
    · exact h

/-- C4 witness: a start event on a cached unowned host performs no API
call, and the one call of a concrete stop run targets an owned id. -/
theorem c4_ownership_gating_witness :
    on_container_start (fun _ => none) (fun _ => JVal.null) (fun _ _ => false) "t"
      stUnowned ciC3 = Except.ok (stUnowned, []) ∧
    (∃ hid data, ApiCall.updateHost (JVal.num 1) [("enabled", JVal.bool false)] =
      ApiCall.updateHost hid data ∧ jvalMem stOwned.managed_host_ids hid = true) :=
  ⟨c4_ownership_gating.1 (fun _ => none) (fun _ => JVal.null) (fun _ _ => false) "t"
      stUnowned ciC3 cfgC3 (JVal.str "app.example.com") (JVal.num 3000) "10.0.0.5"
      [("id", JVal.num 9), ("meta", JVal.str "\x7b\x7d")] (JVal.num 9)
      rfl rfl rfl rfl rfl rfl rfl,
   c4_ownership_gating.2 (fun _ => none) (fun _ _ => true) stOwned "c1"
      ⟨[(JVal.str "d.com", hostOwnedDisabled)], [JVal.num 1]⟩
      [ApiCall.updateHost (JVal.num 1) [("enabled", JVal.bool false)]] rfl
      (ApiCall.updateHost (JVal.num 1) [("enabled", JVal.bool false)])
      (List.mem_singleton.mpr rfl)⟩

/-- On well-formed entries the stop loop succeeds and emits exactly one
disable call per matching entry, in cache order, each with the body
(enabled, false) and nothing else; the owned-id set is untouched. -/
lemma stop_go_wf (jsonLoads : String → Option JVal)
    (updateH : JVal → List (String × JVal) → Bool) (cid : String) :
    ∀ (entries : List (JVal × JVal)) (st : ServiceState) (calls : List ApiCall),
      entries.all (entryWF jsonLoads) = true →
      ∃ st2, stop_go jsonLoads updateH cid entries st calls =
        Except.ok (st2, calls ++
          (entries.filter (stopMatches jsonLoads st.managed_host_ids cid)).map
            (fun e => ApiCall.updateHost (hostIdOf e) [("enabled", JVal.bool false)])) ∧
        st2.managed_host_ids = st.managed_host_ids := by
  intro entries
  induction entries with
  | nil =>
    intro st calls _
    exact ⟨st, by simp [stop_go], rfl⟩
  | cons e rest ih =>
    obtain ⟨domain, host⟩ := e
    intro st calls hwf
    simp only [List.all_cons, Bool.and_eq_true] at hwf
    obtain ⟨hwf1, hwfr⟩ := hwf
    cases host with
    | obj kvs =>
      cases hparse : parse_meta jsonLoads (dictGetD kvs "meta" (JVal.str "\x7b\x7d")) with
      | obj mkvs =>
        simp only [stop_go, pyDotGet, hparse]
        by_cases hmem : jvalMem st.managed_host_ids (dictGetD kvs "id" JVal.null) = true
        · rw [if_pos hmem]
          by_cases hbeq :
              JVal.beq (dictGetD mkvs "container_id" JVal.null) (JVal.str cid) = true
          · rw [if_pos hbeq]
            have hmatch : stopMatches jsonLoads st.managed_host_ids cid
                (domain, JVal.obj kvs) = true := by
              simp only [stopMatches, hparse, hmem, hbeq, Bool.and_self]
            by_cases hupd :
                updateH (dictGetD kvs "id" JVal.null) [("enabled", JVal.bool false)] = true
            · rw [if_pos hupd]
              simp only [pyMerge]
              obtain ⟨st2, hrun, hman⟩ := ih
                ⟨jAlistSet st.current_npm_hosts domain
                  (JVal.obj (List.foldl (fun acc p => alistSet acc p.1 p.2) kvs
                    [("enabled", JVal.bool false)])), st.managed_host_ids⟩
                (calls ++ [ApiCall.updateHost (dictGetD kvs "id" JVal.null)
                  [("enabled", JVal.bool false)]]) hwfr
              refine ⟨st2, ?_, hman⟩
              rw [hrun]
              simp [List.filter_cons, hmatch, hostIdOf]
            · rw [if_neg hupd]
              obtain ⟨st2, hrun, hman⟩ := ih st
                (calls ++ [ApiCall.updateHost (dictGetD kvs "id" JVal.null)
                  [("enabled", JVal.bool false)]]) hwfr
              refine ⟨st2, ?_, hman⟩
              rw [hrun]
              simp [List.filter_cons, hmatch, hostIdOf]
          · rw [if_neg hbeq]
            have hmatch : stopMatches jsonLoads st.managed_host_ids cid
                (domain, JVal.obj kvs) = false := by
              simp only [stopMatches, hparse, hbeq, Bool.and_false]
            obtain ⟨st2, hrun, hman⟩ := ih st calls hwfr
            refine ⟨st2, ?_, hman⟩
            rw [hrun]
            simp [List.filter_cons, hmatch]
        · rw [if_neg hmem]
          have hmem0 : jvalMem st.managed_host_ids (dictGetD kvs "id" JVal.null) = false :=
            Bool.not_eq_true _ ▸ eq_false_of_ne_true hmem
          have hmatch : stopMatches jsonLoads st.managed_host_ids cid
              (domain, JVal.obj kvs) = false := by
            simp only [stopMatches, hmem0, Bool.false_and]
          obtain ⟨st2, hrun, hman⟩ := ih st calls hwfr
          refine ⟨st2, ?_, hman⟩
          rw [hrun]
          simp [List.filter_cons, hmatch]
      | null => simp [entryWF, hparse] at hwf1
      | bool b => simp [entryWF, hparse] at hwf1
      | num n => simp [entryWF, hparse] at hwf1
      | str s => simp [entryWF, hparse] at hwf1
      | arr xs => simp [entryWF, hparse] at hwf1
    | null => simp [entryWF] at hwf1
    | bool b => simp [entryWF] at hwf1
    | num n => simp [entryWF] at hwf1
    | str s => simp [entryWF] at hwf1
    | arr xs => simp [entryWF] at hwf1

/-- C6: the stop handler issues exactly one update per matching owned
host, each with the body (enabled, false) and nothing else. -/
theorem c6_stop_disable_only (jsonLoads : String → Option JVal)
    (updateH : JVal → List (String × JVal) → Bool)
    (st : ServiceState) (cid : String)
    (hwf : st.current_npm_hosts.all (entryWF jsonLoads) = true) :
    ∃ st2 calls, on_container_stop jsonLoads updateH st cid = Except.ok (st2, calls) ∧
      calls = (st.current_npm_hosts.filter
          (stopMatches jsonLoads st.managed_host_ids cid)).map
        (fun e => ApiCall.updateHost (hostIdOf e) [("enabled", JVal.bool false)]) ∧
      (st.current_npm_hosts.filter (stopMatches jsonLoads st.managed_host_ids cid) = [] →
        calls = []) ∧
      (∀ e, st.current_npm_hosts.filter (stopMatches jsonLoads st.managed_host_ids cid) = [e] →
        calls = [ApiCall.updateHost (hostIdOf e) [("enabled", JVal.bool false)]]) := by
  obtain ⟨st2, hrun, -⟩ :=
    stop_go_wf jsonLoads updateH cid st.current_npm_hosts st [] hwf
  refine ⟨st2, _, ?_, rfl, ?_, ?_⟩
  · unfold on_container_stop
    rw [hrun]
    simp
  · intro h
    rw [h]
    rfl
  · intro e h
    rw [h]
    rfl

/-- C6 witness: one owned host bound to container c1; the stop run
issues exactly its disable call. -/
theorem c6_stop_disable_only_witness :
    ∃ st2 calls,
      on_container_stop (fun _ => none) (fun _ _ => true) stOwned "c1" =
        Except.ok (st2, calls) ∧
      calls = (stOwned.current_npm_hosts.filter
          (stopMatches (fun _ => none) stOwned.managed_host_ids "c1")).map
        (fun e => ApiCall.updateHost (hostIdOf e) [("enabled", JVal.bool false)]) ∧
      (stOwned.current_npm_hosts.filter
          (stopMatches (fun _ => none) stOwned.managed_host_ids "c1") = [] → calls = []) ∧
      (∀ e, stOwned.current_npm_hosts.filter
          (stopMatches (fun _ => none) stOwned.managed_host_ids "c1") = [e] →
        calls = [ApiCall.updateHost (hostIdOf e) [("enabled", JVal.bool false)]]) :=
  c6_stop_disable_only (fun _ => none) (fun _ _ => true) stOwned "c1" rfl

/-- When every update call fails, the stop loop leaves the state
exactly as it was. -/
lemma stop_go_fail_keeps_cache (jsonLoads : String → Option JVal) (cid : String) :
    ∀ (entries : List (JVal × JVal)) (st : ServiceState) (calls : List ApiCall)
      (st2 : ServiceState) (calls2 : List ApiCall),
      stop_go jsonLoads (fun _ _ => false) cid entries st calls = Except.ok (st2, calls2) →
      st2 = st := by
  intro entries
  induction entries with
  | nil =>
    intro st calls st2 calls2 hrun
    simp only [stop_go, Except.ok.injEq, Prod.mk.injEq] at hrun
    exact hrun.1.symm
  | cons e rest ih =>
    obtain ⟨domain, host⟩ := e
    intro st calls st2 calls2 hrun
    simp only [stop_go] at hrun
    split at hrun
    · exact absurd hrun (by simp)
    split at hrun
    case isTrue =>
      split at hrun
      · exact absurd hrun (by simp)
      split at hrun
      · exact absurd hrun (by simp)
      split at hrun
      case isTrue =>
        split at hrun
        case isTrue hf => exact absurd hf (by simp)
        case isFalse => exact ih _ _ _ _ hrun
      case isFalse => exact ih _ _ _ _ hrun
    case isFalse => exact ih _ _ _ _ hrun

/-- C7: a failed create or update leaves the cache exactly as it was. -/
theorem c7_failed_call_cache_untouched :
    (∀ (jsonLoads : String → Option JVal) (createH : List (String × JVal) → JVal)
       (updateH : JVal → List (String × JVal) → Bool) (now : String)
       (st : ServiceState) (ci : ContainerInfo) (cfg : List (String × JVal))
       (domain port : JVal) (ip : String) (hd : List (String × JVal)),
      ci.npm_config = some cfg →
      dictIndex cfg "host" = Except.ok domain →
      dictIndex cfg "port" = Except.ok port →
      get_container_ip cfg ci.networks = some ip →
      jAlistGet st.current_npm_hosts domain = none →
      prepare_host_data now domain ip port ci.id cfg = Except.ok hd →
      pyTruthy (createH hd) = false →
      on_container_start jsonLoads createH updateH now st ci =
        Except.ok (st, [ApiCall.createHost hd]))
    ∧ (∀ (jsonLoads : String → Option JVal) (createH : List (String × JVal) → JVal)
        (updateH : JVal → List (String × JVal) → Bool) (now : String)
        (st : ServiceState) (ci : ContainerInfo) (cfg : List (String × JVal))
        (domain port : JVal) (ip : String) (kvs hd0 : List (String × JVal)) (host_id : JVal),
      ci.npm_config = some cfg →
      dictIndex cfg "host" = Except.ok domain →
      dictIndex cfg "port" = Except.ok port →
      get_container_ip cfg ci.networks = some ip →
      jAlistGet st.current_npm_hosts domain = some (JVal.obj kvs) →
      dictIndex kvs "id" = Except.ok host_id →
      jvalMem st.managed_host_ids host_id = true →
      prepare_host_data now domain ip port ci.id cfg = Except.ok hd0 →
      updateH host_id (alistSet hd0 "enabled" (JVal.num 1)) = false →
      on_container_start jsonLoads createH updateH now st ci =
        Except.ok (st, [ApiCall.updateHost host_id (alistSet hd0 "enabled" (JVal.num 1))]))
    ∧ (∀ (jsonLoads : String → Option JVal) (st : ServiceState) (cid : String)
        (st2 : ServiceState) (calls : List ApiCall),
      on_container_stop jsonLoads (fun _ _ => false) st cid = Except.ok (st2, calls) →
      st2 = st) := by
  refine ⟨?_, ?_, ?_⟩
  · intro jsonLoads createH updateH now st ci cfg domain port ip hd
      hnpm hhost hport hip hlook hpd hcr
    simp only [on_container_start, hnpm, hhost, hport, hip, hlook, hpd, hcr,
      Bool.false_eq_true, if_false]
  · intro jsonLoads createH updateH now st ci cfg domain port ip kvs hd0 host_id
      hnpm hhost hport hip hlook hid hmem hpd hupd
    simp only [on_container_start, hnpm, hhost, hport, hip, hlook, pyIndexKey, hid,
      pyDotGet, hmem, if_true, hpd, hupd, Bool.false_eq_true, if_false]
  · intro jsonLoads st cid st2 calls hrun
    exact stop_go_fail_keeps_cache jsonLoads cid st.current_npm_hosts st [] st2 calls hrun

/-- C7 witness: a failed create, a failed update-on-start and a stop
run whose updates all fail each leave the state untouched. -/
theorem c7_failed_call_cache_untouched_witness :
    on_container_start (fun _ => none) (fun _ => JVal.null) (fun _ _ => false) "t"
      ⟨[], []⟩ ciC3 = Except.ok (⟨[], []⟩, [ApiCall.createHost hdC3]) ∧
    on_container_start (fun _ => none) (fun _ => JVal.null) (fun _ _ => false) "t"
      stOwned9 ciC3 =
      Except.ok (stOwned9, [ApiCall.updateHost (JVal.num 9)
        (alistSet hdC3 "enabled" (JVal.num 1))]) ∧
    stOwned = stOwned :=
  ⟨c7_failed_call_cache_untouched.1 (fun _ => none) (fun _ => JVal.null) (fun _ _ => false)
      "t" ⟨[], []⟩ ciC3 cfgC3 (JVal.str "app.example.com") (JVal.num 3000) "10.0.0.5" hdC3
      rfl rfl rfl rfl rfl rfl rfl,
   c7_failed_call_cache_untouched.2.1 (fun _ => none) (fun _ => JVal.null) (fun _ _ => false)
      "t" stOwned9 ciC3 cfgC3 (JVal.str "app.example.com") (JVal.num 3000) "10.0.0.5"
      [("id", JVal.num 9), ("meta", JVal.str "\x7b\x7d")] hdC3 (JVal.num 9)
      rfl rfl rfl rfl rfl rfl rfl rfl rfl,
   c7_failed_call_cache_untouched.2.2 (fun _ => none) stOwned "c1" stOwned
      [ApiCall.updateHost (JVal.num 1) [("enabled", JVal.bool false)]] rfl⟩

end EnvoyNpm
